/-
Verification of the spyware detector core (src/spyware_detector.py) against
its natural-language specification (spec.md).

Shallow embedding conventions:
- The signature database (a JSON object, package id → description) is an
  association list `SigDB`; `sigGet` embeds Python `dict.get`.
- The device gateway (`runtime.adb`, `runtime.get_phone`) is not part of the
  source under src/; its contract is modelled from the spec (section 4.2):
  `get_phone` yields `Option Phone`, the package-listing call yields
  `Except DeviceCommandError String` (stdout on success), and an uninstall
  call yields `Except UninstallError Unit`.
- Gateway interactions are made observable as a trace of `AdbCall`s.
- The wx list control is embedded as the list of displayed `PackageRecord`s;
  worker threads are made explicit by a `scansInFlight` counter in `DlgState`.
-/
import Mathlib

namespace SpywareDetector

/-- Scan status of one package: the source renders the strings
"Suspicious" / "Clean" (src/spyware_detector.py line 96). -/
inductive Status where
  | Clean
  | Suspicious
deriving DecidableEq, Repr

/-- One row of the result list: package id, status, detection description
(columns of `ResultList`, filled in `_worker_scan` lines 97-99). -/
structure PackageRecord where
  id : String
  status : Status
  description : String
deriving DecidableEq, Repr

/-- The signature database: a JSON object mapping package identifiers to
detection descriptions, embedded as an association list. -/
abbrev SigDB := List (String × String)

/-- Embeds Python `SIG_DB.get(pkg)` (line 95): first binding of the key,
`none` when absent. -/
def sigGet (db : SigDB) (k : String) : Option String :=
  match db with
  | [] => none
  | e :: es => if e.1 == k then some e.2 else sigGet es k

/-- Python truthiness of `detect` (an `Option String`): `None` and the empty
string are falsy, every other string is truthy (line 96 `if detect`). -/
def truthy : Option String → Bool
  | none => false
  | some s => !(s == "")

/-- Python `detect or ""` (line 99): the description column text. -/
def orEmpty : Option String → String
  | none => ""
  | some s => s

/-- Boolean list-prefix test, structural on both lists. -/
def isPrefixList : List Char → List Char → Bool
  | [], _ => true
  | _ :: _, [] => false
  | p :: ps, s :: ss => p == s && isPrefixList ps ss

/-- Embeds Python `str.removeprefix` (line 94): drop the prefix when present,
otherwise return the string unchanged. -/
def removeprefix (s p : String) : String :=
  if isPrefixList p.toList s.toList then String.mk (s.toList.drop p.toList.length) else s

/-- The gateway marker stripped from enumerated identifiers (line 94). -/
def pkgMarker : String := "package:"

/-- Embeds the per-package body of `_worker_scan` (lines 94-99): look the
identifier up in the database and build the displayed row. -/
def classify (db : SigDB) (pkg : String) : PackageRecord :=
  { id := pkg
  , status := if truthy (sigGet db pkg) then Status.Suspicious else Status.Clean
  , description := orEmpty (sigGet db pkg) }

/-- Embeds Python `str.split()` with no argument (line 92): split on runs of
whitespace, dropping empty tokens. `acc` holds the current token reversed. -/
def splitWsAux : List Char → List Char → List String
  | [], acc => if acc.isEmpty then [] else [String.mk acc.reverse]
  | c :: cs, acc =>
    if c.isWhitespace then
      if acc.isEmpty then splitWsAux cs []
      else String.mk acc.reverse :: splitWsAux cs []
    else splitWsAux cs (c :: acc)

/-- Python `stdout.split()`. -/
def pySplit (s : String) : List String := splitWsAux s.toList []

/-- A connected device handle, as returned by `get_phone` when a device is
present. Modelled from the spec: `runtime.get_phone` is not under src/. -/
inductive Phone where
  | mk
deriving DecidableEq, Repr

/-- Modelled from the spec (section 4.2): enumeration fails on channel
failure, timeout, or non-zero exit of the device package manager. -/
inductive DeviceCommandError where
  | channelFailure
  | timeout
  | nonZeroExit
deriving DecidableEq, Repr

/-- One gateway command issued over the device channel. -/
inductive AdbCall where
  | listPackages
  | uninstall (user : Nat) (pkg : String)
deriving DecidableEq, Repr

/-- Result of one `_worker_scan` run: the no-device short circuit
(lines 88-90), an enumeration failure propagating out of the handler-free
worker (line 92), or the full ordered record list (lines 93-99). -/
inductive ScanOutcome where
  | noDevice
  | enumFailed (e : DeviceCommandError)
  | ok (records : List PackageRecord)
deriving DecidableEq, Repr

/-- Embeds `_worker_scan` (lines 86-101). Returns the trace of gateway calls
and the outcome. `phone` is the `get_phone()` result; `adbOut` is the
enumeration call's result (stdout on success). The worker has no exception
handler, so an enumeration error aborts it with no records produced. -/
def worker_scan (db : SigDB) (phone : Option Phone)
    (adbOut : Except DeviceCommandError String) : List AdbCall × ScanOutcome :=
  match phone with
  | none => ([], ScanOutcome.noDevice)
  | some _ =>
    match adbOut with
    | Except.error e => ([AdbCall.listPackages], ScanOutcome.enumFailed e)
    | Except.ok stdout =>
      ([AdbCall.listPackages],
       ScanOutcome.ok ((pySplit stdout).map (fun l => classify db ( removeprefix l pkgMarker))))

/-- The dialog's observable state: the rows currently displayed in the
result list control, and the number of scan worker threads started and not
yet finished. -/
structure DlgState where
  displayed : List PackageRecord
  scansInFlight : Nat
deriving DecidableEq, Repr

/-- Embeds the `on_scan` click handler (lines 82-84): it unconditionally
clears the list control (`DeleteAllItems`) and starts a new worker thread;
there is no guard against a scan already in flight. -/
def on_scan (s : DlgState) : DlgState :=
  { displayed := [], scansInFlight := s.scansInFlight + 1 }

/-- The records a finished worker has appended to the list control:
none unless the scan reached the per-package loop. -/
def scanRecords : List AdbCall × ScanOutcome → List PackageRecord
  | (_, ScanOutcome.ok records) => records
  | _ => []

/-- Did the worker produce a record list? -/
def scanOk : ScanOutcome → Bool
  | ScanOutcome.ok _ => true
  | _ => false

/-- Completion of one `_worker_scan` thread against the dialog state: the
worker appends its rows (lines 97-99 insert at the end of the current list)
and the thread exits. -/
def worker_scan_finish (db : SigDB) (phone : Option Phone)
    (adbOut : Except DeviceCommandError String) (s : DlgState) : DlgState :=
  { displayed := s.displayed ++ scanRecords (worker_scan db phone adbOut)
  , scansInFlight := s.scansInFlight - 1 }

/-- State of the signature database file `spyware_signatures.json`
(external interface, spec section 6): absent, present but not JSON,
or present and parsing to a JSON object with the given bindings. -/
inductive SigResource where
  | absent
  | malformedJson
  | objectOf (entries : SigDB)
deriving DecidableEq, Repr

/-- Result of `load_signature_db`: a mapping, or a raised
`json.JSONDecodeError` propagating out of the function. -/
inductive LoadResult where
  | ok (db : SigDB)
  | raised
deriving DecidableEq, Repr

/-- Embeds `load_signature_db` (lines 24-28): when the file exists the
content is handed to `json.load` with no exception handler, so malformed
JSON raises; only an absent file yields the empty mapping. -/
def load_signature_db : SigResource → LoadResult
  | SigResource.absent => LoadResult.ok []
  | SigResource.malformedJson => LoadResult.raised
  | SigResource.objectOf entries => LoadResult.ok entries

/-- Modelled from the spec (section 4.2): per-package failure modes of the
gateway uninstall call; `runtime.adb` is not under src/. -/
inductive UninstallError where
  | failure (reason : String)
  | notInstalled
deriving DecidableEq, Repr

/-- Observable effect of one `_worker_uninstall` run: the gateway commands
issued, and whether the rescan refresh was triggered at the end. -/
structure UninstallRun where
  calls : List AdbCall
  rescanTriggered : Bool
deriving DecidableEq, Repr

/-- Embeds `_worker_uninstall` (lines 122-125): one `pm uninstall --user 0`
call per package in the order given, each gateway result discarded (the
source ignores the return value of `adb`), then a rescan is triggered.
The run is therefore independent of the gateway's responses `gw`. -/
def worker_uninstall (gw : String → Except UninstallError Unit)
    (pkgs : List String) : UninstallRun :=
  { calls := pkgs.map (fun p => AdbCall.uninstall 0 p)
  , rescanTriggered := true }

/-- Per-package removal outcome named by the spec (section 3,
RemovalOutcome). -/
inductive RemovalOutcome where
  | Removed
  | Failed (reason : String)
  | NotFound
deriving DecidableEq, Repr

/-- Modelled from the spec (section 4.4), for comparison with the code's
`worker_uninstall`: attempt each identifier in order and record Removed on
success, Failed(reason) on gateway error, NotFound when not installed. -/
def spec_remove (gw : String → Except UninstallError Unit)
    (ids : List String) : List RemovalOutcome :=
  ids.map fun p =>
    match gw p with
    | Except.ok _ => RemovalOutcome.Removed
    | Except.error (UninstallError.failure r) => RemovalOutcome.Failed r
    | Except.error UninstallError.notInstalled => RemovalOutcome.NotFound

/-- Result of the `on_remove` click handler: empty selection returns at once
(line 113-114), the user may cancel the confirmation dialog (line 117-118),
otherwise the uninstall worker is spawned (line 120). -/
inductive RemoveAction where
  | noSelection
  | cancelled
  | spawned (run : UninstallRun)
deriving DecidableEq, Repr

/-- Embeds `on_remove` (lines 106-120) given the selected row texts and the
user's answer to the confirmation dialog. -/
def on_remove (gw : String → Except UninstallError Unit)
    (sel : List String) (userConfirms : Bool) : RemoveAction :=
  if sel.isEmpty then RemoveAction.noSelection
  else if userConfirms then RemoveAction.spawned ( worker_uninstall gw sel)
  else RemoveAction.cancelled

/-- Gateway commands issued by a remove interaction. -/
def issuedCalls : RemoveAction → List AdbCall
  | RemoveAction.spawned run => run.calls
  | _ => []

/-- A gateway on which every uninstall succeeds. -/
def gwAllOk : String → Except UninstallError Unit :=
  fun _ => Except.ok ()

/-- A gateway on which every uninstall fails with a generic error. -/
def gwAllFail : String → Except UninstallError Unit :=
  fun _ => Except.error (UninstallError.failure "uninstall failed")

/-- Concrete stdout of the enumeration call used in witnesses. -/
def exStdout : String := "package:com.evil.tracker com.safe.app"

/-- Concrete signature database used in witnesses (spec section 8). -/
def exDB : SigDB := [("com.evil.tracker", "Tracker X")]

/-- A signature database binding a package identifier to the EMPTY
description: the key is present but its value is falsy in Python. -/
def exEmptyDescDB : SigDB := [("com.evil.tracker", "")]

/-- The empty string, named so concrete statements can apply a function to
it. -/
def emptyStr : String := ""

/-- Package identifier used in concrete witnesses (spec section 8). -/
def exPkgEvil : String := "com.evil.tracker"

/-- Second package identifier used in concrete witnesses. -/
def exPkgSafe : String := "com.safe.app"

/-- The suspicious record produced by scanning `exStdout` against `exDB`. -/
def exRec1 : PackageRecord :=
  { id := "com.evil.tracker", status := Status.Suspicious, description := "Tracker X" }

/-- The clean record produced by scanning `exStdout` against `exDB`. -/
def exRec2 : PackageRecord :=
  { id := "com.safe.app", status := Status.Clean, description := "" }

-- ---------------------------------------------------------------------------
-- Helper lemmas about classify and sigGet
-- ---------------------------------------------------------------------------

theorem classify_id (db : SigDB) (p : String) : (classify db p).id = p := rfl

theorem classify_status_iff (db : SigDB) (p : String) :
    (classify db p).status = Status.Suspicious
      ↔ ∃ s, sigGet db p = some s ∧ s ≠ emptyStr := by
  unfold classify
  cases h : sigGet db p with
  | none => simp [truthy, h, emptyStr]
  | some s =>
    by_cases hs : s = emptyStr
    · subst hs; simp [truthy, h, emptyStr]
    · simp only [emptyStr] at hs
      simp [truthy, h, hs, emptyStr]

theorem classify_desc_iff (db : SigDB) (p : String) :
    (classify db p).description ≠ emptyStr ↔ (classify db p).status = Status.Suspicious := by
  unfold classify
  cases h : sigGet db p with
  | none => simp [truthy, orEmpty, emptyStr]
  | some s =>
    by_cases hs : s = emptyStr
    · subst hs; simp [truthy, orEmpty, emptyStr]
    · simp only [emptyStr] at hs
      simp [truthy, orEmpty, hs, emptyStr]

theorem sigGet_filter_self (db : SigDB) (p : String) :
    sigGet (db.filter (fun e => !(e.1 == p))) p = none := by
  induction db with
  | nil => rfl
  | cons e es ih =>
    rw [List.filter_cons]
    by_cases h : e.1 = p
    · simp [h, ih]
    · simp [sigGet, h, ih]

theorem sigGet_filter_ne (db : SigDB) (p q : String) (hq : q ≠ p) :
    sigGet (db.filter (fun e => !(e.1 == p))) q = sigGet db q := by
  induction db with
  | nil => rfl
  | cons e es ih =>
    rw [List.filter_cons]
    by_cases h : e.1 = p
    · subst h
      have : ¬ e.1 = q := fun hh => hq hh.symm
      simp [sigGet, this, ih]
    · simp [sigGet, h, ih]

theorem classify_filter_emptyDesc (db : SigDB) (p : String)
    (h : sigGet db p = some emptyStr) (q : String) :
    classify (db.filter (fun e => !(e.1 == p))) q = classify db q := by
  by_cases hq : q = p
  · subst hq
    unfold classify
    rw [h, sigGet_filter_self]
    rfl
  · unfold classify
    rw [sigGet_filter_ne db p q hq]

theorem worker_scan_congr (db db' : SigDB) (h : ∀ q, classify db q = classify db' q)
    (phone : Option Phone) (adbOut : Except DeviceCommandError String) :
    worker_scan db phone adbOut = worker_scan db' phone adbOut := by
  cases phone with
  | none => rfl
  | some ph =>
    cases adbOut with
    | error e => rfl
    | ok stdout =>
      unfold worker_scan
      have hf : (fun l => classify db ( removeprefix l pkgMarker))
          = fun l => classify db' ( removeprefix l pkgMarker) :=
        funext fun l => h _
      rw [hf]

-- ---------------------------------------------------------------------------
-- Claim theorems
-- ---------------------------------------------------------------------------

/-- Claim C1, counterexample: scanning a store that binds
"com.evil.tracker" to the EMPTY description yields a record whose identifier
IS a key of the store but whose status is Clean, refuting
"status is Suspicious if and only if the identifier is a key of the store". -/
theorem scan_status_iff_key_counterexample :
    (worker_scan exEmptyDescDB (some Phone.mk) (Except.ok exStdout)).2
      = ScanOutcome.ok
          [{ id := "com.evil.tracker", status := Status.Clean, description := "" },
           { id := "com.safe.app", status := Status.Clean, description := "" }]
    ∧ sigGet exEmptyDescDB exPkgEvil = some emptyStr
    ∧ Status.Clean ≠ Status.Suspicious := by
  refine ⟨rfl, rfl, ?_⟩
  decide

/-- Claim C1 (amended): for every scan, a produced record's status is
Suspicious if and only if the store maps its identifier to a NON-EMPTY
description, and its description is non-empty if and only if its status is
Suspicious. -/
theorem scan_status_iff_nonempty_desc (db : SigDB) (phone : Option Phone)
    (adbOut : Except DeviceCommandError String) (recs : List PackageRecord)
    (r : PackageRecord)
    (hscan : (worker_scan db phone adbOut).2 = ScanOutcome.ok recs)
    (hr : r ∈ recs) :
    (r.status = Status.Suspicious ↔ ∃ s, sigGet db r.id = some s ∧ s ≠ emptyStr)
    ∧ (r.description ≠ emptyStr ↔ r.status = Status.Suspicious) := by
  cases phone with
  | none => simp [worker_scan] at hscan
  | some ph =>
    cases adbOut with
    | error e => simp [worker_scan] at hscan
    | ok stdout =>
      simp only [worker_scan] at hscan
      injection hscan with hscan
      subst hscan
      obtain ⟨l, _, rfl⟩ := List.mem_map.mp hr
      exact ⟨classify_status_iff db _, classify_desc_iff db _⟩

/-- Witness for the amended C1 at the concrete scan of `exStdout` against
`exDB`. -/
theorem scan_status_iff_nonempty_desc_witness :
    (exRec1.status = Status.Suspicious ↔ ∃ s, sigGet exDB exRec1.id = some s ∧ s ≠ emptyStr)
    ∧ (exRec1.description ≠ emptyStr ↔ exRec1.status = Status.Suspicious) :=
  scan_status_iff_nonempty_desc exDB (some Phone.mk) (Except.ok exStdout)
    [exRec1, exRec2] exRec1 rfl (List.mem_cons_self _ _)

/-- Claim C10: a package whose identifier is bound in the store to the empty
string is reported Clean with an empty description, and the whole scan is
identical to one against the store with that key removed — classification
tests the truthiness of the looked-up description, not key membership. -/
theorem scan_empty_desc_as_absent (db : SigDB) (phone : Option Phone)
    (adbOut : Except DeviceCommandError String) (p : String)
    (h : sigGet db p = some emptyStr) :
    worker_scan db phone adbOut
      = worker_scan (db.filter (fun e => !(e.1 == p))) phone adbOut
    ∧ classify db p = { id := p, status := Status.Clean, description := emptyStr } := by
  constructor
  · exact (worker_scan_congr _ _ (classify_filter_emptyDesc db p h) phone adbOut).symm
  · unfold classify
    rw [h]
    rfl

/-- Witness for C10 at the concrete store binding "com.evil.tracker" to the
empty description. -/
theorem scan_empty_desc_as_absent_witness :
    worker_scan exEmptyDescDB (some Phone.mk) (Except.ok exStdout)
      = worker_scan (exEmptyDescDB.filter (fun e => !(e.1 == exPkgEvil)))
          (some Phone.mk) (Except.ok exStdout)
    ∧ classify exEmptyDescDB exPkgEvil
        = { id := exPkgEvil, status := Status.Clean, description := emptyStr } :=
  scan_empty_desc_as_absent exEmptyDescDB (some Phone.mk) (Except.ok exStdout)
    exPkgEvil rfl

/-- The record produced for "com.evil.tracker" when the store is empty. -/
def exCleanRec : PackageRecord :=
  { id := "com.evil.tracker", status := Status.Clean, description := "" }

/-- Claim C2, counterexample: a PRESENT but malformed signature file does
not degrade to the empty mapping — `json.load` runs with no exception
handler (lines 26-27), so the parse error is raised, not absorbed. -/
theorem load_malformed_counterexample :
    load_signature_db SigResource.malformedJson = LoadResult.raised
    ∧ load_signature_db SigResource.malformedJson ≠ LoadResult.ok [] := by
  refine ⟨rfl, ?_⟩
  decide

/-- Claim C2 (amended): an ABSENT signature file degrades to the empty
mapping, and every package scanned against the empty mapping reports Clean;
a malformed file instead raises out of `load_signature_db`. -/
theorem load_absent_degrades_all_clean (ph : Phone) (stdout : String)
    (r : PackageRecord)
    (hr : r ∈ scanRecords (worker_scan [] (some ph) (Except.ok stdout))) :
    load_signature_db SigResource.absent = LoadResult.ok []
    ∧ r.status = Status.Clean := by
  refine ⟨rfl, ?_⟩
  simp only [worker_scan, scanRecords] at hr
  obtain ⟨l, _, rfl⟩ := List.mem_map.mp hr
  rfl

/-- Witness for the amended C2: scanning `exStdout` against the empty
mapping yields the Clean record for "com.evil.tracker". -/
theorem load_absent_degrades_all_clean_witness :
    load_signature_db SigResource.absent = LoadResult.ok []
    ∧ exCleanRec.status = Status.Clean :=
  load_absent_degrades_all_clean Phone.mk exStdout exCleanRec (by decide)

/-- Claim C4: with no device connected the scan worker short-circuits with
the no-device report before enumeration: no gateway call is issued and no
record list is produced. -/
theorem scan_no_device_short_circuit (db : SigDB)
    (adbOut : Except DeviceCommandError String) :
    (worker_scan db none adbOut).1 = []
    ∧ (worker_scan db none adbOut).2 = ScanOutcome.noDevice
    ∧ scanRecords (worker_scan db none adbOut) = [] :=
  ⟨rfl, rfl, rfl⟩

/-- Claim C6: when the enumeration call fails, the whole scan fails carrying
that DeviceCommandError, and no records are produced — no partial result. -/
theorem scan_enum_failure_atomic (db : SigDB) (ph : Phone)
    (e : DeviceCommandError) :
    (worker_scan db (some ph) (Except.error e)).2 = ScanOutcome.enumFailed e
    ∧ scanRecords (worker_scan db (some ph) (Except.error e)) = []
    ∧ scanOk (worker_scan db (some ph) (Except.error e)).2 = false :=
  ⟨rfl, rfl, rfl⟩

/-- Claim C7: a successful scan produces exactly one record per enumerated
identifier, in device enumeration order, with the gateway marker
"package:" stripped from each identifier. -/
theorem scan_records_match_enumeration (db : SigDB) (ph : Phone)
    (stdout : String) :
    ∃ recs, (worker_scan db (some ph) (Except.ok stdout)).2 = ScanOutcome.ok recs
      ∧ recs.map PackageRecord.id
          = (pySplit stdout).map (fun l => removeprefix l pkgMarker)
      ∧ recs.length = (pySplit stdout).length := by
  refine ⟨_, rfl, ?_, ?_⟩
  · rw [List.map_map]
    rfl
  · rw [List.length_map]

/-- Claim C3, counterexample: the uninstall worker's observable behaviour is
identical for a gateway on which every uninstall succeeds and one on which
every uninstall fails — it discards the gateway results and records no
per-package outcome — while the RemovalOutcome sequences the claim requires
differ (Removed versus Failed). -/
theorem remove_outcomes_counterexample :
    worker_uninstall gwAllOk [exPkgEvil] = worker_uninstall gwAllFail [exPkgEvil]
    ∧ spec_remove gwAllOk [exPkgEvil] ≠ spec_remove gwAllFail [exPkgEvil] := by
  refine ⟨rfl, ?_⟩
  decide

/-- Claim C3 (amended): for every non-empty input, the worker attempts each
package independently in the order given — exactly one uninstall call per
identifier against user profile 0, in input order, independent of the
gateway's per-package results (so no per-package failure aborts the batch) —
and then triggers a rescan; but no per-package RemovalOutcome is recorded or
returned. -/
theorem remove_attempts_all_in_order
    (gw gw' : String → Except UninstallError Unit)
    (pkgs : List String) (h : pkgs ≠ []) :
    (worker_uninstall gw pkgs).calls = pkgs.map (fun p => AdbCall.uninstall 0 p)
    ∧ worker_uninstall gw pkgs = worker_uninstall gw' pkgs
    ∧ (worker_uninstall gw pkgs).rescanTriggered = true :=
  ⟨rfl, rfl, rfl⟩

/-- Witness for the amended C3 at a one-package batch against the
all-succeed and all-fail gateways. -/
theorem remove_attempts_all_in_order_witness :
    (worker_uninstall gwAllOk [exPkgEvil]).calls
        = [exPkgEvil].map (fun p => AdbCall.uninstall 0 p)
    ∧ worker_uninstall gwAllOk [exPkgEvil] = worker_uninstall gwAllFail [exPkgEvil]
    ∧ (worker_uninstall gwAllOk [exPkgEvil]).rescanTriggered = true :=
  remove_attempts_all_in_order gwAllOk gwAllFail [exPkgEvil] (by decide)

/-- Claim C8: an empty selection is rejected at once — the handler returns
before the confirmation dialog and before any worker is spawned, so no
gateway call is issued. -/
theorem remove_empty_selection_rejected
    (gw : String → Except UninstallError Unit) (userConfirms : Bool) :
    on_remove gw [] userConfirms = RemoveAction.noSelection
    ∧ issuedCalls (on_remove gw [] userConfirms) = [] :=
  ⟨rfl, rfl⟩

/-- Dialog state displaying one earlier result, used for C5. -/
def prevState : DlgState := { displayed := [exRec1], scansInFlight := 0 }

/-- Claim C5, counterexample: with a previous result displayed and no device
connected, the Scan click clears the list control BEFORE the worker detects
the failure, so the failed scan ends with an empty list — the prior record
is deleted, not left unchanged. -/
theorem failed_scan_keeps_results_counterexample :
    scanOk (worker_scan exDB none (Except.ok exStdout)).2 = false
    ∧ (worker_scan_finish exDB none (Except.ok exStdout) (on_scan prevState)).displayed = []
    ∧ prevState.displayed ≠ [] := by
  refine ⟨rfl, rfl, ?_⟩
  decide

/-- Claim C5 (amended): when a scan fails (no device, or enumeration error),
the worker appends no records — but the displayed list was already cleared
by the click handler, so after the failed scan the list is empty rather
than still holding the previous results. -/
theorem failed_scan_list_cleared (db : SigDB) (phone : Option Phone)
    (adbOut : Except DeviceCommandError String) (s : DlgState)
    (h : scanOk (worker_scan db phone adbOut).2 = false) :
    (worker_scan_finish db phone adbOut (on_scan s)).displayed = [] := by
  cases hpair : worker_scan db phone adbOut with
  | mk calls outcome =>
    rw [hpair] at h
    cases outcome with
    | noDevice => simp [worker_scan_finish, on_scan, scanRecords, hpair]
    | enumFailed e => simp [worker_scan_finish, on_scan, scanRecords, hpair]
    | ok recs => simp [scanOk] at h

/-- Witness for the amended C5 at the no-device failure with one prior
displayed record. -/
theorem failed_scan_list_cleared_witness :
    (worker_scan_finish exDB none (Except.ok exStdout) (on_scan prevState)).displayed = [] :=
  failed_scan_list_cleared exDB none (Except.ok exStdout) prevState rfl

/-- Claim C9, counterexample: from a state with one scan already in flight,
a Scan click starts a second concurrent worker instead of rejecting or
queueing the request — the in-flight count rises to two. -/
theorem no_concurrent_scan_counterexample :
    (on_scan { displayed := [], scansInFlight := 1 }).scansInFlight = 2
    ∧ ¬ (on_scan { displayed := [], scansInFlight := 1 }).scansInFlight ≤ 1 := by
  refine ⟨rfl, ?_⟩
  decide

/-- Claim C9 (amended): the Scan click handler performs no serialization —
it unconditionally clears the list and starts one more worker thread, so a
scan requested while another is in flight runs concurrently with it. -/
theorem scan_click_always_spawns (s : DlgState) :
    (on_scan s).scansInFlight = s.scansInFlight + 1
    ∧ (on_scan s).displayed = [] :=
  ⟨rfl, rfl⟩

end SpywareDetector
